import Mathlib

/-!
Shallow embedding of the MoodSnap persisted-collection store.

The repository keeps two JSON-array collections in an asynchronous
key-value store: mood entries (key `moodEntries`, written by
`saveMoodEntry` in `app/(tabs)/index.js`, read by `loadMoodEntries` and
mutated by `deleteMoodEntry` in `app/(tabs)/history.js`) and inspiration
images (key `inspirationImages`, handled by `loadInspirationImages`,
`saveInspirationImages`, `takeInspirationPicture` and `deleteImage` in
`app/(tabs)/inspiration.js`).

The storage engine is opaque (`get(key) -> string|null`,
`set(key, value)`, both fallible).  The only strings the code ever
writes are `JSON.stringify` of an item array, which parses back to the
same array; any other present value makes `JSON.parse` throw.  We
therefore model the cell bound to a collection key by three cases:
absent, present-but-unparsable, or a parsed item list.  Fallibility of
the underlying `get`/`set` calls is passed in explicitly as booleans
(`getOk`, `setOk`); a failed `set` leaves the cell unchanged.

React state setters (`setMoodEntries`, `setInspirationImages`, the form
setters) become explicit state threading: each operation returns the
new in-memory mirror together with the new cell and the user-visible
outcome (which alert fired).
-/

namespace MoodSnap

/-- A mood entry as persisted by `saveMoodEntry` in `index.js`:
`{id, mood, journalText, imageUri, timestamp}` with `imageUri`
possibly null. -/
structure MoodEntry where
  id : String
  mood : String
  journalText : String
  imageUri : Option String
  timestamp : String
deriving DecidableEq

/-- An inspiration image as persisted by `takeInspirationPicture` in
`inspiration.js`: `{id, uri, note}`. -/
structure InspirationImage where
  id : String
  uri : String
  note : String
deriving DecidableEq

/-- The storage cell bound to one collection key.  `absent` is
`getItem` returning null; `corrupt` is a present string on which
`JSON.parse` throws; `val items` is a present string that parses to
`items` (the only strings the code writes are `JSON.stringify` of an
array, which round-trips). -/
inductive Cell (α : Type) where
  | absent
  | corrupt
  | val (items : List α)
deriving DecidableEq

/-- The contents `JSON.parse(stored)` yields, with `[]` for an absent
value, as in `storedEntries ? JSON.parse(storedEntries) : []`. -/
def cellEntries {α : Type} : Cell α → List α
  | Cell.val items => items
  | _ => []

/-- User-visible outcome of a load or persist: `ok` means the success
path ran, `error` means the catch block fired an error alert. -/
inductive Outcome where
  | ok
  | error
deriving DecidableEq

/-- User-visible outcome of `saveMoodEntry`: the missing-mood alert,
the success alert, or the failure alert from the catch block. -/
inductive SaveOutcome where
  | missingMood
  | saved
  | failed
deriving DecidableEq

/-- The form state of the New Entry screen: `selectedMood`,
`journalText` and `imageUri` state hooks in `index.js`. -/
structure MoodForm where
  selectedMood : Option String
  journalText : String
  imageUri : Option String
deriving DecidableEq

/-- Id generation used by both collections: `Date.now().toString()`,
the decimal representation of the wall-clock millisecond count. -/
def dateNowToString (msClock : Nat) : String :=
  Nat.repr msClock

/-- `saveMoodEntry` from `app/(tabs)/index.js`.  If no mood is
selected it alerts and returns.  Otherwise it builds the new entry
(id from `Date.now()`), reads the stored array (absent means `[]`,
an unparsable value throws into the catch block), prepends the new
entry, writes the whole array back, and on success resets the form.
Any `getItem`/`JSON.parse`/`setItem` fault lands in the catch block,
which alerts and leaves everything unchanged. -/
def saveMoodEntry (form : MoodForm) (msClock : Nat) (timestampToSave : String)
    (cell : Cell MoodEntry) (getOk setOk : Bool) :
    SaveOutcome × Cell MoodEntry × MoodForm :=
  match form.selectedMood with
  | none => (SaveOutcome.missingMood, cell, form)
  | some mood =>
    let newEntry : MoodEntry :=
      { id := dateNowToString msClock
        mood := mood
        journalText := form.journalText
        imageUri := form.imageUri
        timestamp := timestampToSave }
    if getOk then
      match cell with
      | Cell.corrupt => (SaveOutcome.failed, Cell.corrupt, form)
      | Cell.absent =>
        let updatedEntries := [newEntry]
        if setOk then
          (SaveOutcome.saved, Cell.val updatedEntries,
            { selectedMood := none, journalText := "", imageUri := none })
        else
          (SaveOutcome.failed, Cell.absent, form)
      | Cell.val currentEntries =>
        let updatedEntries := newEntry :: currentEntries
        if setOk then
          (SaveOutcome.saved, Cell.val updatedEntries,
            { selectedMood := none, journalText := "", imageUri := none })
        else
          (SaveOutcome.failed, Cell.val currentEntries, form)
    else (SaveOutcome.failed, cell, form)

/-- `loadMoodEntries` from `app/(tabs)/history.js`.  Reads the stored
value; non-null parses and replaces the mirror, null resets the mirror
to `[]`; a read fault or parse throw lands in the catch block, which
alerts and leaves the mirror as it was. -/
def loadMoodEntries (moodEntries : List MoodEntry) (cell : Cell MoodEntry)
    (getOk : Bool) : Outcome × List MoodEntry :=
  if getOk then
    match cell with
    | Cell.corrupt => (Outcome.error, moodEntries)
    | Cell.absent => (Outcome.ok, [])
    | Cell.val items => (Outcome.ok, items)
  else (Outcome.error, moodEntries)

/-- The confirmed-Delete branch of `deleteMoodEntry` in
`app/(tabs)/history.js`: filters the mirror, calls `setMoodEntries`
with the filtered list BEFORE awaiting `setItem`, then persists; a
persist fault lands in the catch block, which alerts but does not roll
the mirror back.  Returns (outcome, mirror, cell). -/
def deleteMoodEntryConfirmed (idToDelete : String)
    (moodEntries : List MoodEntry) (cell : Cell MoodEntry) (setOk : Bool) :
    Outcome × List MoodEntry × Cell MoodEntry :=
  let updatedEntries := moodEntries.filter (fun entry => entry.id != idToDelete)
  if setOk then
    (Outcome.ok, updatedEntries, Cell.val updatedEntries)
  else
    (Outcome.error, updatedEntries, cell)

/-- `loadInspirationImages` from `app/(tabs)/inspiration.js`.  A
non-null stored value parses and replaces the mirror; a null one is
simply skipped (there is no else branch), leaving the mirror as it
was; a read fault or parse throw lands in the catch block, which
alerts and leaves the mirror unchanged. -/
def loadInspirationImages (inspirationImages : List InspirationImage)
    (cell : Cell InspirationImage) (getOk : Bool) :
    Outcome × List InspirationImage :=
  if getOk then
    match cell with
    | Cell.corrupt => (Outcome.error, inspirationImages)
    | Cell.absent => (Outcome.ok, inspirationImages)
    | Cell.val items => (Outcome.ok, items)
  else (Outcome.error, inspirationImages)

/-- `saveInspirationImages` from `app/(tabs)/inspiration.js`: writes
the given array to the key; a write fault is caught internally and
alerted, leaving the stored value unchanged. -/
def saveInspirationImages (images : List InspirationImage)
    (cell : Cell InspirationImage) (setOk : Bool) :
    Outcome × Cell InspirationImage :=
  if setOk then (Outcome.ok, Cell.val images)
  else (Outcome.error, cell)

/-- The two buttons of the Add-a-Note prompt shown by
`takeInspirationPicture` after a successful capture: Cancel, or Save
carrying the prompt text (`none` models an undefined `noteText`). -/
inductive NotePromptChoice where
  | cancel
  | saveNote (noteText : Option String)
deriving DecidableEq

/-- The post-capture tail of `takeInspirationPicture` in
`app/(tabs)/inspiration.js`: on either prompt button the new image is
appended at the tail of the mirror (Cancel stores `note: ''`; Save
stores `noteText ? noteText.trim() : ''`, so an undefined or empty
`noteText` also yields `''`), `setInspirationImages` runs with the
appended list, and `saveInspirationImages` persists it.  Returns
(mirror, cell, persist outcome). -/
def takeInspirationPictureAfterCapture (choice : NotePromptChoice)
    (newImageUri : String) (msClock : Nat)
    (inspirationImages : List InspirationImage)
    (cell : Cell InspirationImage) (setOk : Bool) :
    List InspirationImage × Cell InspirationImage × Outcome :=
  match choice with
  | NotePromptChoice.cancel =>
    let updatedImages := inspirationImages ++
      [{ id := dateNowToString msClock, uri := newImageUri, note := "" }]
    let saved := saveInspirationImages updatedImages cell setOk
    (updatedImages, saved.2, saved.1)
  | NotePromptChoice.saveNote noteText =>
    let note :=
      match noteText with
      | none => ""
      | some t => if t = "" then "" else t.trim
    let updatedImages := inspirationImages ++
      [{ id := dateNowToString msClock, uri := newImageUri, note := note }]
    let saved := saveInspirationImages updatedImages cell setOk
    (updatedImages, saved.2, saved.1)

/-- The confirmed-Delete branch of `deleteImage` in
`app/(tabs)/inspiration.js`: filters the mirror by id, calls
`setInspirationImages` with the filtered list BEFORE awaiting the
persist, then persists via `saveInspirationImages` (which swallows a
write fault after alerting).  Returns (mirror, cell, persist
outcome). -/
def deleteImageConfirmed (idToDelete : String)
    (inspirationImages : List InspirationImage)
    (cell : Cell InspirationImage) (setOk : Bool) :
    List InspirationImage × Cell InspirationImage × Outcome :=
  let updatedImages := inspirationImages.filter (fun image => image.id != idToDelete)
  let saved := saveInspirationImages updatedImages cell setOk
  (updatedImages, saved.2, saved.1)

/-!
`Date.now().toString()` is modelled as `Nat.repr` of the millisecond
clock.  To settle the id-uniqueness claim we need that distinct clock
values give distinct strings, i.e. that `Nat.repr` is injective.  The
library does not provide this, so we prove it by relating the
fuel-based `Nat.toDigitsCore` to a structurally defined digit-list
function and showing the latter injective.
-/

/-- Decimal digit characters of `n`, most significant first; the list
`Nat.toDigits 10 n` computes once its fuel suffices. -/
def natChars (n : Nat) : List Char :=
  if h : n / 10 = 0 then [Nat.digitChar (n % 10)]
  else natChars (n / 10) ++ [Nat.digitChar (n % 10)]
decreasing_by
  exact Nat.div_lt_self (Nat.pos_of_ne_zero fun h0 => h (by simp [h0])) (by norm_num)

/-- Controlled unfolding of `natChars`. -/
theorem natChars_eq (n : Nat) : natChars n =
    if n / 10 = 0 then [Nat.digitChar (n % 10)]
    else natChars (n / 10) ++ [Nat.digitChar (n % 10)] := by
  rw [natChars]
  by_cases h : n / 10 = 0 <;> simp [h]

/-- One unfolding step of the fuel-based digit loop. -/
theorem toDigitsCore_succ (fuel n : Nat) (ds : List Char) :
    Nat.toDigitsCore 10 (fuel + 1) n ds =
      if n / 10 = 0 then Nat.digitChar (n % 10) :: ds
      else Nat.toDigitsCore 10 fuel (n / 10) (Nat.digitChar (n % 10) :: ds) := by
  rfl

/-- With enough fuel, the digit loop computes `natChars` and appends
the accumulator. -/
theorem toDigitsCore_eq_natChars (fuel : Nat) : ∀ (n : Nat) (ds : List Char),
    n < 10 ^ (fuel + 1) →
    Nat.toDigitsCore 10 (fuel + 1) n ds = natChars n ++ ds := by
  induction fuel with
  | zero =>
    intro n ds h
    have h0 : n / 10 = 0 := Nat.div_eq_of_lt (by simpa using h)
    rw [toDigitsCore_succ, natChars_eq n]
    simp [h0]
  | succ f ih =>
    intro n ds h
    rw [toDigitsCore_succ]
    by_cases h0 : n / 10 = 0
    · rw [natChars_eq n]
      simp [h0]
    · have hlt : n / 10 < 10 ^ (f + 1) := by
        rw [Nat.div_lt_iff_lt_mul (by norm_num : (0:Nat) < 10)]
        calc n < 10 ^ (f + 1 + 1) := h
        _ = 10 ^ (f + 1) * 10 := by ring
      rw [if_neg h0, ih (n / 10) (Nat.digitChar (n % 10) :: ds) hlt]
      rw [natChars_eq n, if_neg h0]
      simp

/-- `Nat.toDigits 10` agrees with the structural digit-list function. -/
theorem toDigits_eq_natChars (n : Nat) : Nat.toDigits 10 n = natChars n := by
  have h : n < 10 ^ (n + 1) := by
    calc n < 10 ^ n := Nat.lt_pow_self (by norm_num) n
    _ ≤ 10 ^ (n + 1) := Nat.pow_le_pow_right (by norm_num) (Nat.le_succ n)
  have hmain := toDigitsCore_eq_natChars n n [] h
  simpa [Nat.toDigits] using hmain

/-- `Nat.digitChar` is injective on digits below ten. -/
theorem digitChar_inj_lt (a b : Nat) (ha : a < 10) (hb : b < 10)
    (h : Nat.digitChar a = Nat.digitChar b) : a = b := by
  have key : ∀ x y : Fin 10, Nat.digitChar x.val = Nat.digitChar y.val → x = y := by
    decide
  have hxy := key ⟨a, ha⟩ ⟨b, hb⟩ h
  simpa using congrArg Fin.val hxy

/-- The digit list of a natural number is never empty. -/
theorem natChars_ne_nil (n : Nat) : natChars n ≠ [] := by
  rw [natChars_eq n]
  split <;> simp

/-- The structural digit-list function is injective. -/
theorem natChars_inj (m : Nat) : ∀ n : Nat, natChars m = natChars n → m = n := by
  induction m using Nat.strong_induction_on with
  | _ m ih =>
    intro n h
    rw [natChars_eq m, natChars_eq n] at h
    by_cases hm : m / 10 = 0 <;> by_cases hn : n / 10 = 0
    · rw [if_pos hm, if_pos hn] at h
      have hd : Nat.digitChar (m % 10) = Nat.digitChar (n % 10) := by
        simpa using h
      have hmod : m % 10 = n % 10 :=
        digitChar_inj_lt _ _ (Nat.mod_lt _ (by norm_num)) (Nat.mod_lt _ (by norm_num)) hd
      omega
    · rw [if_pos hm, if_neg hn] at h
      have hlen := congrArg List.length h
      simp only [List.length_singleton, List.length_append] at hlen
      exact absurd (List.length_eq_zero.mp (by omega)) (natChars_ne_nil (n / 10))
    · rw [if_neg hm, if_pos hn] at h
      have hlen := congrArg List.length h
      simp only [List.length_singleton, List.length_append] at hlen
      exact absurd (List.length_eq_zero.mp (by omega)) (natChars_ne_nil (m / 10))
    · rw [if_neg hm, if_neg hn] at h
      have hlen : (natChars (m / 10)).length = (natChars (n / 10)).length := by
        have hl := congrArg List.length h
        simp only [List.length_singleton, List.length_append] at hl
        omega
      obtain ⟨h1, h2⟩ := List.append_inj h hlen
      have hdiv : m / 10 = n / 10 :=
        ih (m / 10)
          (Nat.div_lt_self (Nat.pos_of_ne_zero (by omega)) (by norm_num))
          (n / 10) h1
      have hd : Nat.digitChar (m % 10) = Nat.digitChar (n % 10) := by
        simpa using h2
      have hmod : m % 10 = n % 10 :=
        digitChar_inj_lt _ _ (Nat.mod_lt _ (by norm_num)) (Nat.mod_lt _ (by norm_num)) hd
      omega

/-- `Nat.repr` is injective. -/
theorem natRepr_inj (m n : Nat) (h : Nat.repr m = Nat.repr n) : m = n := by
  apply natChars_inj
  rw [← toDigits_eq_natChars, ← toDigits_eq_natChars]
  have hdata := congrArg String.data h
  simpa [Nat.repr, List.asString] using hdata

/-- Distinct millisecond clock readings give distinct generated ids. -/
theorem dateNowToString_inj (ms1 ms2 : Nat) (h : ms1 ≠ ms2) :
    dateNowToString ms1 ≠ dateNowToString ms2 :=
  fun hc => h (natRepr_inj ms1 ms2 hc)

/-- C3: a stored value that is present but unparsable makes every load
report an error (the catch block alerts) and leaves the in-memory
mirror exactly as it was — in particular it is not replaced with an
empty sequence. -/
theorem c3_corrupt_load_is_reported (entries : List MoodEntry)
    (images : List InspirationImage) :
    loadMoodEntries entries Cell.corrupt true = (Outcome.error, entries) ∧
    loadInspirationImages images Cell.corrupt true = (Outcome.error, images) :=
  ⟨rfl, rfl⟩

/-- C7: loading a fresh collection key (stored value absent, mirror in
its initial `[]` state for the inspiration screen) yields an empty
sequence with the success outcome, never an error. -/
theorem c7_fresh_key_loads_empty (entries : List MoodEntry) :
    loadMoodEntries entries Cell.absent true = (Outcome.ok, []) ∧
    loadInspirationImages [] Cell.absent true = (Outcome.ok, []) :=
  ⟨rfl, rfl⟩

/-- C9: a confirmed delete filters out EVERY item whose id equals the
given id, in both collections: the resulting mirror is exactly the
filter of the previous mirror, and an item belongs to the result iff it
was present before and its id differs from the deleted one. -/
theorem c9_remove_excludes_every_match (idToDelete : String)
    (entries : List MoodEntry) (cellM : Cell MoodEntry)
    (images : List InspirationImage) (cellI : Cell InspirationImage)
    (setOk : Bool) :
    ((deleteMoodEntryConfirmed idToDelete entries cellM setOk).2.1 =
        entries.filter (fun entry => entry.id != idToDelete) ∧
      ∀ entry : MoodEntry,
        entry ∈ (deleteMoodEntryConfirmed idToDelete entries cellM setOk).2.1 ↔
          entry ∈ entries ∧ entry.id ≠ idToDelete) ∧
    ((deleteImageConfirmed idToDelete images cellI setOk).1 =
        images.filter (fun image => image.id != idToDelete) ∧
      ∀ image : InspirationImage,
        image ∈ (deleteImageConfirmed idToDelete images cellI setOk).1 ↔
          image ∈ images ∧ image.id ≠ idToDelete) := by
  constructor
  · constructor
    · cases setOk <;> rfl
    · intro entry
      cases setOk <;>
        simp [deleteMoodEntryConfirmed, List.mem_filter, bne_iff_ne]
  · constructor
    · cases setOk <;> rfl
    · intro image
      cases setOk <;>
        simp [deleteImageConfirmed, saveInspirationImages, List.mem_filter,
          bne_iff_ne]

/-- C10: with no mood selected, `saveMoodEntry` alerts and returns
before touching storage: the outcome is the missing-mood alert, the
stored cell is unchanged, the form state is unchanged, and the result
does not depend on whether the underlying read or write would have
succeeded (no storage access is made). -/
theorem c10_missing_mood_is_pure_noop (journalText : String)
    (imageUri : Option String) (msClock : Nat) (ts : String)
    (cell : Cell MoodEntry) (getOk setOk : Bool) :
    saveMoodEntry
        { selectedMood := none, journalText := journalText, imageUri := imageUri }
        msClock ts cell getOk setOk =
      (SaveOutcome.missingMood, cell,
        { selectedMood := none, journalText := journalText, imageUri := imageUri }) :=
  rfl

/-- C1 counterexample: the claim that a failed persist leaves the
mirror equal to its pre-call value is false.  Deleting the sole entry
of the mood mirror with a failing `setItem` reports the error, yet the
mirror after the call is `[]`, not the pre-call `[entry]`: the code
calls `setMoodEntries` before awaiting the persist and never rolls
back. -/
theorem c1_counterexample :
    (deleteMoodEntryConfirmed "1"
        [{ id := "1", mood := "Happy", journalText := "", imageUri := none,
           timestamp := "2024-01-01T00:00:00Z" }]
        (Cell.val
          [{ id := "1", mood := "Happy", journalText := "", imageUri := none,
             timestamp := "2024-01-01T00:00:00Z" }]) false).1 = Outcome.error ∧
    (deleteMoodEntryConfirmed "1"
        [{ id := "1", mood := "Happy", journalText := "", imageUri := none,
           timestamp := "2024-01-01T00:00:00Z" }]
        (Cell.val
          [{ id := "1", mood := "Happy", journalText := "", imageUri := none,
             timestamp := "2024-01-01T00:00:00Z" }]) false).2.1 ≠
      [{ id := "1", mood := "Happy", journalText := "", imageUri := none,
         timestamp := "2024-01-01T00:00:00Z" }] := by
  decide

/-- C1 amended: on a failed persist every mutating operation leaves the
persisted cell unchanged and reports the failure, but the in-memory
mirror is advanced to the post-operation sequence (the same mirror a
successful call would produce) before the persist is attempted, so
mirror and store diverge until the next successful load. -/
theorem c1_failed_persist_leaves_mirror_advanced (idToDelete : String)
    (entries : List MoodEntry) (cellM : Cell MoodEntry)
    (images : List InspirationImage) (cellI : Cell InspirationImage)
    (uri : String) (ms : Nat) (choice : NotePromptChoice) :
    deleteMoodEntryConfirmed idToDelete entries cellM false =
      (Outcome.error, entries.filter (fun entry => entry.id != idToDelete),
        cellM) ∧
    deleteImageConfirmed idToDelete images cellI false =
      (images.filter (fun image => image.id != idToDelete), cellI,
        Outcome.error) ∧
    (takeInspirationPictureAfterCapture choice uri ms images cellI false).1 =
      (takeInspirationPictureAfterCapture choice uri ms images cellI true).1 ∧
    (takeInspirationPictureAfterCapture choice uri ms images cellI false).2.1 =
      cellI ∧
    (takeInspirationPictureAfterCapture choice uri ms images cellI false).2.2 =
      Outcome.error := by
  refine ⟨rfl, rfl, ?_, ?_, ?_⟩ <;> cases choice <;> rfl

/-- C6: deleting an id that occurs nowhere in the mirror is a
successful no-op in both collections: the mirror is returned unchanged,
the persisted cell is rewritten to that same unchanged sequence, and
the success path runs. -/
theorem c6_remove_missing_id_is_noop (idToDelete : String)
    (entries : List MoodEntry) (cellM : Cell MoodEntry)
    (images : List InspirationImage) (cellI : Cell InspirationImage)
    (hM : ∀ entry ∈ entries, entry.id ≠ idToDelete)
    (hI : ∀ image ∈ images, image.id ≠ idToDelete) :
    deleteMoodEntryConfirmed idToDelete entries cellM true =
      (Outcome.ok, entries, Cell.val entries) ∧
    deleteImageConfirmed idToDelete images cellI true =
      (images, Cell.val images, Outcome.ok) := by
  have hM2 : entries.filter (fun entry => entry.id != idToDelete) = entries :=
    List.filter_eq_self.mpr fun a ha => by simpa [bne_iff_ne] using hM a ha
  have hI2 : images.filter (fun image => image.id != idToDelete) = images :=
    List.filter_eq_self.mpr fun a ha => by simpa [bne_iff_ne] using hI a ha
  constructor
  · simp [deleteMoodEntryConfirmed, hM2]
  · simp [deleteImageConfirmed, saveInspirationImages, hI2]

/-- C6 witness: deleting the never-present id `9` from concrete
one-element mirrors succeeds and changes nothing. -/
theorem c6_witness :
    deleteMoodEntryConfirmed "9"
        [{ id := "1", mood := "Happy", journalText := "", imageUri := none,
           timestamp := "T0" }]
        (Cell.val
          [{ id := "1", mood := "Happy", journalText := "", imageUri := none,
             timestamp := "T0" }]) true =
      (Outcome.ok,
        [{ id := "1", mood := "Happy", journalText := "", imageUri := none,
           timestamp := "T0" }],
        Cell.val
          [{ id := "1", mood := "Happy", journalText := "", imageUri := none,
             timestamp := "T0" }]) ∧
    deleteImageConfirmed "9"
        [{ id := "2", uri := "file://x.jpg", note := "" }]
        (Cell.val [{ id := "2", uri := "file://x.jpg", note := "" }]) true =
      ([{ id := "2", uri := "file://x.jpg", note := "" }],
        Cell.val [{ id := "2", uri := "file://x.jpg", note := "" }],
        Outcome.ok) :=
  c6_remove_missing_id_is_noop "9"
    [{ id := "1", mood := "Happy", journalText := "", imageUri := none,
       timestamp := "T0" }]
    (Cell.val
      [{ id := "1", mood := "Happy", journalText := "", imageUri := none,
         timestamp := "T0" }])
    [{ id := "2", uri := "file://x.jpg", note := "" }]
    (Cell.val [{ id := "2", uri := "file://x.jpg", note := "" }])
    (by decide) (by decide)

/-- C8: after a successful capture, pressing Cancel on the Add-a-Note
prompt still appends the image with an empty note and persists the
appended collection, and the resulting state is identical to pressing
Save with an undefined or empty note text. -/
theorem c8_cancel_still_appends_image (uri : String) (ms : Nat)
    (images : List InspirationImage) (cell : Cell InspirationImage) :
    takeInspirationPictureAfterCapture NotePromptChoice.cancel uri ms images
        cell true =
      (images ++ [{ id := dateNowToString ms, uri := uri, note := "" }],
        Cell.val
          (images ++ [{ id := dateNowToString ms, uri := uri, note := "" }]),
        Outcome.ok) ∧
    takeInspirationPictureAfterCapture NotePromptChoice.cancel uri ms images
        cell true =
      takeInspirationPictureAfterCapture (NotePromptChoice.saveNote none) uri
        ms images cell true ∧
    takeInspirationPictureAfterCapture NotePromptChoice.cancel uri ms images
        cell true =
      takeInspirationPictureAfterCapture (NotePromptChoice.saveNote (some ""))
        uri ms images cell true := by
  refine ⟨rfl, rfl, ?_⟩
  simp [takeInspirationPictureAfterCapture]

/-- C5: appending a fresh-id entry and then deleting that id restores
the collection exactly: after a successful `saveMoodEntry`, reloading
the mirror and running the confirmed delete on the new id succeeds and
yields the original sequence, both in the mirror and in the store, with
the order of all other items preserved. -/
theorem c5_add_then_remove_roundtrip (mood journalText ts : String)
    (imageUri : Option String) (ms : Nat) (S : List MoodEntry)
    (hfresh : ∀ entry ∈ S, entry.id ≠ dateNowToString ms) :
    deleteMoodEntryConfirmed (dateNowToString ms)
        (loadMoodEntries []
          (saveMoodEntry
            { selectedMood := some mood, journalText := journalText,
              imageUri := imageUri } ms ts (Cell.val S) true true).2.1
          true).2
        (saveMoodEntry
          { selectedMood := some mood, journalText := journalText,
            imageUri := imageUri } ms ts (Cell.val S) true true).2.1 true =
      (Outcome.ok, S, Cell.val S) := by
  have hfilter :
      (({ id := dateNowToString ms, mood := mood, journalText := journalText,
          imageUri := imageUri, timestamp := ts } : MoodEntry) :: S).filter
        (fun entry => entry.id != dateNowToString ms) = S := by
    rw [List.filter_cons]
    simp only [bne_self_eq_false, Bool.false_eq_true, if_false]
    exact List.filter_eq_self.mpr fun a ha => by
      simpa [bne_iff_ne] using hfresh a ha
  show deleteMoodEntryConfirmed (dateNowToString ms)
      (({ id := dateNowToString ms, mood := mood, journalText := journalText,
          imageUri := imageUri, timestamp := ts } : MoodEntry) :: S)
      (Cell.val
        (({ id := dateNowToString ms, mood := mood, journalText := journalText,
            imageUri := imageUri, timestamp := ts } : MoodEntry) :: S)) true =
    (Outcome.ok, S, Cell.val S)
  simp [deleteMoodEntryConfirmed, hfilter]

/-- C5 witness: the round trip at a concrete store with one prior
entry. -/
theorem c5_witness :
    (∀ entry ∈
        ([{ id := "1", mood := "Sad", journalText := "", imageUri := none,
            timestamp := "T0" }] : List MoodEntry),
      entry.id ≠ dateNowToString 7) ∧
    deleteMoodEntryConfirmed (dateNowToString 7)
        (loadMoodEntries []
          (saveMoodEntry
            { selectedMood := some "Happy", journalText := "",
              imageUri := none } 7 "T1"
            (Cell.val
              [{ id := "1", mood := "Sad", journalText := "",
                 imageUri := none, timestamp := "T0" }]) true true).2.1
          true).2
        (saveMoodEntry
          { selectedMood := some "Happy", journalText := "",
            imageUri := none } 7 "T1"
          (Cell.val
            [{ id := "1", mood := "Sad", journalText := "",
               imageUri := none, timestamp := "T0" }]) true true).2.1 true =
      (Outcome.ok,
        [{ id := "1", mood := "Sad", journalText := "", imageUri := none,
           timestamp := "T0" }],
        Cell.val
          [{ id := "1", mood := "Sad", journalText := "", imageUri := none,
             timestamp := "T0" }]) :=
  ⟨by decide,
    c5_add_then_remove_roundtrip "Happy" "" "T1" none 7
      [{ id := "1", mood := "Sad", journalText := "", imageUri := none,
         timestamp := "T0" }] (by decide)⟩

/-- C2: appends follow the per-collection position convention.  A
successful `saveMoodEntry` stores the new entry at the HEAD of the
previous sequence, and a subsequent load returns that sequence with
the new entry first and (given its id was fresh) occurring exactly
once.  A successful inspiration append stores the new image at the
TAIL, and a subsequent load returns it last, occurring exactly once. -/
theorem c2_append_position_convention (mood journalText ts : String)
    (imageUri : Option String) (msM : Nat) (current mirrM : List MoodEntry)
    (uri note : String) (msI : Nat) (images mirrI : List InspirationImage)
    (cellI : Cell InspirationImage)
    (hM : ({ id := dateNowToString msM, mood := mood,
             journalText := journalText, imageUri := imageUri,
             timestamp := ts } : MoodEntry) ∉ current)
    (hI : ({ id := dateNowToString msI, uri := uri,
             note := if note = "" then "" else note.trim } :
             InspirationImage) ∉ images) :
    (saveMoodEntry
        { selectedMood := some mood, journalText := journalText,
          imageUri := imageUri } msM ts (Cell.val current) true true).2.1 =
      Cell.val
        ({ id := dateNowToString msM, mood := mood,
           journalText := journalText, imageUri := imageUri,
           timestamp := ts } :: current) ∧
    loadMoodEntries mirrM
        (Cell.val
          ({ id := dateNowToString msM, mood := mood,
             journalText := journalText, imageUri := imageUri,
             timestamp := ts } :: current)) true =
      (Outcome.ok,
        { id := dateNowToString msM, mood := mood,
          journalText := journalText, imageUri := imageUri,
          timestamp := ts } :: current) ∧
    ({ id := dateNowToString msM, mood := mood, journalText := journalText,
       imageUri := imageUri, timestamp := ts } :: current).head? =
      some ({ id := dateNowToString msM, mood := mood,
              journalText := journalText, imageUri := imageUri,
              timestamp := ts } : MoodEntry) ∧
    ({ id := dateNowToString msM, mood := mood, journalText := journalText,
       imageUri := imageUri, timestamp := ts } :: current).count
        ({ id := dateNowToString msM, mood := mood,
           journalText := journalText, imageUri := imageUri,
           timestamp := ts } : MoodEntry) = 1 ∧
    (takeInspirationPictureAfterCapture (NotePromptChoice.saveNote (some note))
        uri msI images cellI true).2.1 =
      Cell.val
        (images ++
          [{ id := dateNowToString msI, uri := uri,
             note := if note = "" then "" else note.trim }]) ∧
    loadInspirationImages mirrI
        (Cell.val
          (images ++
            [{ id := dateNowToString msI, uri := uri,
               note := if note = "" then "" else note.trim }])) true =
      (Outcome.ok,
        images ++
          [{ id := dateNowToString msI, uri := uri,
             note := if note = "" then "" else note.trim }]) ∧
    (images ++
        [({ id := dateNowToString msI, uri := uri,
            note := if note = "" then "" else note.trim } :
            InspirationImage)]).getLast? =
      some ({ id := dateNowToString msI, uri := uri,
              note := if note = "" then "" else note.trim } :
              InspirationImage) ∧
    (images ++
        [({ id := dateNowToString msI, uri := uri,
            note := if note = "" then "" else note.trim } :
            InspirationImage)]).count
        ({ id := dateNowToString msI, uri := uri,
           note := if note = "" then "" else note.trim } :
           InspirationImage) = 1 := by
  refine ⟨rfl, rfl, rfl, ?_, rfl, rfl, ?_, ?_⟩
  · simp [List.count_cons_self, List.count_eq_zero.mpr hM]
  · simp [List.getLast?_concat]
  · simp [List.count_append, List.count_eq_zero.mpr hI]

/-- C2 witness: the position convention at concrete stores with one
prior item each. -/
theorem c2_witness :
    (({ id := dateNowToString 3, mood := "Happy", journalText := "",
        imageUri := none, timestamp := "T1" } : MoodEntry) ∉
      ([{ id := "1", mood := "Sad", journalText := "", imageUri := none,
          timestamp := "T0" }] : List MoodEntry)) ∧
    (({ id := dateNowToString 4, uri := "file://x.jpg",
        note := if "great" = "" then "" else "great".trim } :
        InspirationImage) ∉
      ([{ id := "2", uri := "file://y.jpg", note := "" }] :
        List InspirationImage)) ∧
    ((saveMoodEntry
        { selectedMood := some "Happy", journalText := "", imageUri := none }
        3 "T1"
        (Cell.val
          [{ id := "1", mood := "Sad", journalText := "", imageUri := none,
             timestamp := "T0" }]) true true).2.1 =
      Cell.val
        ({ id := dateNowToString 3, mood := "Happy", journalText := "",
           imageUri := none, timestamp := "T1" } ::
          [{ id := "1", mood := "Sad", journalText := "", imageUri := none,
             timestamp := "T0" }]) ∧
    loadMoodEntries []
        (Cell.val
          ({ id := dateNowToString 3, mood := "Happy", journalText := "",
             imageUri := none, timestamp := "T1" } ::
            [{ id := "1", mood := "Sad", journalText := "", imageUri := none,
               timestamp := "T0" }])) true =
      (Outcome.ok,
        { id := dateNowToString 3, mood := "Happy", journalText := "",
          imageUri := none, timestamp := "T1" } ::
          [{ id := "1", mood := "Sad", journalText := "", imageUri := none,
             timestamp := "T0" }]) ∧
    ({ id := dateNowToString 3, mood := "Happy", journalText := "",
       imageUri := none, timestamp := "T1" } ::
      [{ id := "1", mood := "Sad", journalText := "", imageUri := none,
         timestamp := "T0" }]).head? =
      some ({ id := dateNowToString 3, mood := "Happy", journalText := "",
              imageUri := none, timestamp := "T1" } : MoodEntry) ∧
    ({ id := dateNowToString 3, mood := "Happy", journalText := "",
       imageUri := none, timestamp := "T1" } ::
      [{ id := "1", mood := "Sad", journalText := "", imageUri := none,
         timestamp := "T0" }]).count
        ({ id := dateNowToString 3, mood := "Happy", journalText := "",
           imageUri := none, timestamp := "T1" } : MoodEntry) = 1 ∧
    (takeInspirationPictureAfterCapture
        (NotePromptChoice.saveNote (some "great")) "file://x.jpg" 4
        [{ id := "2", uri := "file://y.jpg", note := "" }] Cell.absent
        true).2.1 =
      Cell.val
        ([{ id := "2", uri := "file://y.jpg", note := "" }] ++
          [{ id := dateNowToString 4, uri := "file://x.jpg",
             note := if "great" = "" then "" else "great".trim }]) ∧
    loadInspirationImages []
        (Cell.val
          ([{ id := "2", uri := "file://y.jpg", note := "" }] ++
            [{ id := dateNowToString 4, uri := "file://x.jpg",
               note := if "great" = "" then "" else "great".trim }])) true =
      (Outcome.ok,
        [{ id := "2", uri := "file://y.jpg", note := "" }] ++
          [{ id := dateNowToString 4, uri := "file://x.jpg",
             note := if "great" = "" then "" else "great".trim }]) ∧
    (([{ id := "2", uri := "file://y.jpg", note := "" }] :
        List InspirationImage) ++
        [({ id := dateNowToString 4, uri := "file://x.jpg",
            note := if "great" = "" then "" else "great".trim } :
            InspirationImage)]).getLast? =
      some ({ id := dateNowToString 4, uri := "file://x.jpg",
              note := if "great" = "" then "" else "great".trim } :
              InspirationImage) ∧
    (([{ id := "2", uri := "file://y.jpg", note := "" }] :
        List InspirationImage) ++
        [({ id := dateNowToString 4, uri := "file://x.jpg",
            note := if "great" = "" then "" else "great".trim } :
            InspirationImage)]).count
        ({ id := dateNowToString 4, uri := "file://x.jpg",
           note := if "great" = "" then "" else "great".trim } :
           InspirationImage) = 1) :=
  ⟨by decide, by decide,
    c2_append_position_convention "Happy" "" "T1" none 3
      [{ id := "1", mood := "Sad", journalText := "", imageUri := none,
         timestamp := "T0" }] []
      "file://x.jpg" "great" 4
      [{ id := "2", uri := "file://y.jpg", note := "" }] [] Cell.absent
      (by decide) (by decide)⟩

/-- C4 counterexample: the id generation strategy
(`Date.now().toString()`) does NOT guarantee uniqueness.  Two mood
appends performed at the same millisecond clock value 5 both generate
id `"5"`, so the resulting stored collection holds two items with
colliding ids. -/
theorem c4_counterexample :
    (saveMoodEntry
        { selectedMood := some "Sad", journalText := "", imageUri := none }
        5 "T2"
        (saveMoodEntry
          { selectedMood := some "Happy", journalText := "", imageUri := none }
          5 "T1" Cell.absent true true).2.1 true true).2.1 =
      Cell.val
        [{ id := "5", mood := "Sad", journalText := "", imageUri := none,
           timestamp := "T2" },
         { id := "5", mood := "Happy", journalText := "", imageUri := none,
           timestamp := "T1" }] ∧
    ¬ List.Pairwise (fun a b : MoodEntry => a.id ≠ b.id)
        [{ id := "5", mood := "Sad", journalText := "", imageUri := none,
           timestamp := "T2" },
         { id := "5", mood := "Happy", journalText := "", imageUri := none,
           timestamp := "T1" }] := by
  decide

/-- C4 amended: an appended item always receives the decimal string of
the creation-time millisecond clock as its id, so ids are unique
exactly when the creating operations see distinct clock values:
appends at distinct milliseconds get distinct ids (in either
collection), while appends within one millisecond collide. -/
theorem c4_ids_unique_only_across_milliseconds (ms1 ms2 : Nat)
    (hne : ms1 ≠ ms2) (mood1 mood2 jt1 jt2 ts1 ts2 : String)
    (iu1 iu2 : Option String) (S : List MoodEntry)
    (uri1 uri2 note1 note2 : String) (images : List InspirationImage)
    (cellI : Cell InspirationImage) :
    (saveMoodEntry
        { selectedMood := some mood2, journalText := jt2, imageUri := iu2 }
        ms2 ts2
        (saveMoodEntry
          { selectedMood := some mood1, journalText := jt1, imageUri := iu1 }
          ms1 ts1 (Cell.val S) true true).2.1 true true).2.1 =
      Cell.val
        ({ id := dateNowToString ms2, mood := mood2, journalText := jt2,
           imageUri := iu2, timestamp := ts2 } ::
         { id := dateNowToString ms1, mood := mood1, journalText := jt1,
           imageUri := iu1, timestamp := ts1 } :: S) ∧
    ((takeInspirationPictureAfterCapture
        (NotePromptChoice.saveNote (some note2)) uri2 ms2
        (takeInspirationPictureAfterCapture
          (NotePromptChoice.saveNote (some note1)) uri1 ms1 images cellI
          true).1 cellI true).1).map (fun image => image.id) =
      images.map (fun image => image.id) ++
        [dateNowToString ms1, dateNowToString ms2] ∧
    dateNowToString ms1 ≠ dateNowToString ms2 := by
  refine ⟨rfl, ?_, dateNowToString_inj ms1 ms2 hne⟩
  simp [takeInspirationPictureAfterCapture, saveInspirationImages]

/-- C4 witness: two appends at the distinct clock values 3 and 4
produce the expected sequences with the two distinct ids. -/
theorem c4_witness :
    (3 : Nat) ≠ 4 ∧
    ((saveMoodEntry
        { selectedMood := some "Sad", journalText := "", imageUri := none }
        4 "T2"
        (saveMoodEntry
          { selectedMood := some "Happy", journalText := "", imageUri := none }
          3 "T1" (Cell.val []) true true).2.1 true true).2.1 =
      Cell.val
        ({ id := dateNowToString 4, mood := "Sad", journalText := "",
           imageUri := none, timestamp := "T2" } ::
         { id := dateNowToString 3, mood := "Happy", journalText := "",
           imageUri := none, timestamp := "T1" } :: []) ∧
    ((takeInspirationPictureAfterCapture
        (NotePromptChoice.saveNote (some "b")) "file://y.jpg" 4
        (takeInspirationPictureAfterCapture
          (NotePromptChoice.saveNote (some "a")) "file://x.jpg" 3 []
          Cell.absent true).1 Cell.absent true).1).map
        (fun image => image.id) =
      ([] : List InspirationImage).map (fun image => image.id) ++
        [dateNowToString 3, dateNowToString 4] ∧
    dateNowToString 3 ≠ dateNowToString 4) :=
  ⟨by decide,
    c4_ids_unique_only_across_milliseconds 3 4 (by decide) "Happy" "Sad" "" ""
      "T1" "T2" none none [] "file://x.jpg" "file://y.jpg" "a" "b" []
      Cell.absent⟩

end MoodSnap
